import Mathlib

/-!
Verification of the ShadowCalculator repository against its specification.

The Python source is shallowly embedded:
* float arithmetic without trigonometry is modelled over `ℚ` (or a generic
  linear ordered field), so that concrete runs are decidable;
* trigonometric code (`math.sin`, `math.tan`, `math.atan2`, `math.radians`)
  is modelled over `ℝ` with Mathlib's real functions;
* Python's `raise` is modelled with `Except`;
* Python's `%` on floats (result carries the divisor's sign) is `pymod`.
-/

/-- Python's float modulo `x % y`: for `y > 0` the result lies in `[0, y)`.
Defined as `x - y * ⌊x / y⌋`, which is exactly CPython's semantics for
finite operands and positive divisor. -/
def pymod {α : Type} [LinearOrderedField α] [FloorRing α] (x y : α) : α :=
  x - y * (⌊x / y⌋ : ℤ)

namespace ShadowCalculations

/-- Embeds `ShadowCalculations.is_sun_parallel`
(src/Calculation/ShadowCalculations.py, lines 33-54):

    sun_direction = (shadow_direction + 180) % 360
    angle_diff = abs((sun_direction - wall_direction) % 360)
    return (angle_diff <= tolerance_degrees or
            abs(angle_diff - 180) <= tolerance_degrees)
-/
def is_sun_parallel {α : Type} [LinearOrderedField α] [FloorRing α]
    (wall_direction shadow_direction : α) (tolerance_degrees : α := 5) : Prop :=
  let sun_direction := pymod (shadow_direction + 180) 360
  let angle_diff := |pymod (sun_direction - wall_direction) 360|
  angle_diff ≤ tolerance_degrees ∨ |angle_diff - 180| ≤ tolerance_degrees

/-- Embeds `ShadowCalculations.calculate_shadow_direction`
(src/Calculation/ShadowCalculations.py, lines 117-130):
`return (solar_azimuth + 180) % 360`. -/
def calculate_shadow_direction {α : Type} [LinearOrderedField α] [FloorRing α]
    (solar_azimuth : α) : α :=
  pymod (solar_azimuth + 180) 360

end ShadowCalculations

/-- The parallel test as the specification words it: the *angular difference*
(circular distance in `[0, 180]`) between the sun bearing and the wall bearing
is within tolerance of 0° or of 180°, inclusive.  Used only to compare the
spec's reading with the source's `is_sun_parallel`. -/
def spec_is_sun_parallel {α : Type} [LinearOrderedField α] [FloorRing α]
    (wall_direction shadow_direction : α) (tolerance_degrees : α := 5) : Prop :=
  let sun_direction := pymod (shadow_direction + 180) 360
  let d := pymod (sun_direction - wall_direction) 360
  let circular := min d (360 - d)
  circular ≤ tolerance_degrees ∨ |circular - 180| ≤ tolerance_degrees

/-! ## Real-valued embedding of the trigonometric parts

Coordinates and heights are `pint` quantities in the source; all claims are
about unit-consistent data, so points are modelled as pairs of real
magnitudes.  `math.radians`, `math.degrees`, `math.atan2` are modelled with
Mathlib's real functions. -/

/-- `math.radians`: degrees to radians, `x * (pi / 180)`. -/
noncomputable def radians (x : ℝ) : ℝ := x * (Real.pi / 180)

/-- `math.degrees`: radians to degrees, `x * (180 / pi)`. -/
noncomputable def math_degrees (x : ℝ) : ℝ := x * (180 / Real.pi)

/-- `math.atan2 y x`: the standard two-argument arctangent (signed zeros of
floats are identified, which is irrelevant for the claims). -/
noncomputable def atan2 (y x : ℝ) : ℝ :=
  if 0 < x then Real.arctan (y / x)
  else if x < 0 then
    (if 0 ≤ y then Real.arctan (y / x) + Real.pi else Real.arctan (y / x) - Real.pi)
  else
    (if 0 < y then Real.pi / 2 else if y < 0 then -(Real.pi / 2) else 0)

/-- Embeds `DataModel.Wall` (src/DataModel/Wall.py): a named wall with a
height and two endpoints (magnitudes of unit-consistent quantities). -/
structure Wall where
  name : String
  height : ℝ
  start_point : ℝ × ℝ
  end_point : ℝ × ℝ

/-- Embeds `DataModel.Shadow` (src/DataModel/Shadow.py): wall, time, vertex
polygon and the solar angles.  Constructed through `Shadow.make`, which
performs the `__post_init__` validation. -/
structure Shadow where
  wall : Wall
  time : ℤ
  vertices : List (ℝ × ℝ)
  solar_elevation : ℝ
  solar_azimuth : ℝ

/-- The error raised by `Shadow.__post_init__` when the vertex list does not
have exactly 4 entries. -/
inductive ShadowError where
  | badVertexCount (n : ℕ)
  deriving DecidableEq

/-- Embeds construction of a `Shadow` dataclass followed by
`Shadow.__post_init__` (src/DataModel/Shadow.py, lines 57-62):
`if len(self.vertices) != 4: raise ValueError(...)`. -/
def Shadow.make (wall : Wall) (time : ℤ) (vertices : List (ℝ × ℝ))
    (solar_elevation solar_azimuth : ℝ) : Except ShadowError Shadow :=
  if vertices.length = 4 then
    .ok ⟨wall, time, vertices, solar_elevation, solar_azimuth⟩
  else
    .error (.badVertexCount vertices.length)

/-- The shoelace accumulation loop of `Shadow.area`
(src/DataModel/Shadow.py, lines 125-129): over consecutive pairs of the
(already closed) coordinate list, sum `x[i]*y[i+1] - y[i]*x[i+1]`. -/
noncomputable def shoelace_sum : List (ℝ × ℝ) → ℝ
  | a :: b :: rest => (a.1 * b.2 - a.2 * b.1) + shoelace_sum (b :: rest)
  | _ => 0

/-- Embeds the `Shadow.area` property (src/DataModel/Shadow.py, lines
106-132): append the first vertex to close the polygon, run the shoelace
loop, take absolute value and halve.  (The empty case is unreachable: the
constructor enforces 4 vertices.) -/
noncomputable def Shadow.area (s : Shadow) : ℝ :=
  match s.vertices with
  | [] => 0
  | v :: _ => |shoelace_sum (s.vertices ++ [v])| / 2

namespace ShadowCalculations

/-- Embeds `ShadowCalculations.calculate_wall_direction`
(src/Calculation/ShadowCalculations.py, lines 11-31):

    dx = wall.end_point.x - wall.start_point.x
    dy = wall.end_point.y - wall.start_point.y
    math_angle = math.atan2(dy.magnitude, dx.magnitude)
    compass_angle = (90 - math.degrees(math_angle)) % 360
-/
noncomputable def calculate_wall_direction (wall : Wall) : ℝ :=
  let dx := wall.end_point.1 - wall.start_point.1
  let dy := wall.end_point.2 - wall.start_point.2
  pymod (90 - math_degrees (atan2 dy dx)) 360

/-- Embeds `ShadowCalculations.calculate_shadow_length`
(src/Calculation/ShadowCalculations.py, lines 90-115):

    elevation_rad = math.radians(solar_elevation)
    if elevation_rad < 0.001: return wall_height * 1000
    return wall_height / math.tan(elevation_rad)
-/
noncomputable def calculate_shadow_length (wall_height : ℝ)
    (solar_elevation : ℝ) : ℝ :=
  let elevation_rad := radians solar_elevation
  if elevation_rad < 0.001 then wall_height * 1000
  else wall_height / Real.tan elevation_rad

open Classical in
/-- Embeds `ShadowCalculations.calculate_shadow_vertices`
(src/Calculation/ShadowCalculations.py, lines 132-199).  The parallel branch
returns the 4-entry triangular list closed with the start point; the general
branch returns a 5-entry list: start, end, end+offset, start+offset, and the
closing start point again. -/
noncomputable def calculate_shadow_vertices (wall : Wall) (shadow_length : ℝ)
    (shadow_direction : ℝ) : List (ℝ × ℝ) :=
  let wall_direction := calculate_wall_direction wall
  let direction_rad := radians shadow_direction
  let dx := shadow_length * Real.sin direction_rad
  let dy := shadow_length * Real.cos direction_rad
  if is_sun_parallel wall_direction shadow_direction 5 then
    let wall_mid_x := (wall.start_point.1 + wall.end_point.1) / 2
    let wall_mid_y := (wall.start_point.2 + wall.end_point.2) / 2
    [wall.start_point, wall.end_point,
     (wall_mid_x + dx, wall_mid_y + dy),
     wall.start_point]
  else
    [wall.start_point, wall.end_point,
     (wall.end_point.1 + dx, wall.end_point.2 + dy),
     (wall.start_point.1 + dx, wall.start_point.2 + dy),
     wall.start_point]

/-- Embeds `ShadowCalculations.calculate_shadow`
(src/Calculation/ShadowCalculations.py, lines 201-240): length, direction,
vertices, then the `Shadow` construction (whose `__post_init__` may raise). -/
noncomputable def calculate_shadow (wall : Wall) (solar_elevation : ℝ)
    (solar_azimuth : ℝ) (time : ℤ) : Except ShadowError Shadow :=
  let shadow_length := calculate_shadow_length wall.height solar_elevation
  let shadow_direction := calculate_shadow_direction solar_azimuth
  let vertices := calculate_shadow_vertices wall shadow_length shadow_direction
  Shadow.make wall time vertices solar_elevation solar_azimuth

end ShadowCalculations

/-! ## Sun position provider (src/Calculation/Sun.py)

Latitude, longitude and angles are modelled over `ℚ`; a `datetime` is a
timestamp together with an awareness flag (`tzinfo is None` ↔ `aware =
false`).  The astral ephemeris is an external collaborator and is passed in
as an abstract function, exactly where `_calculate_position` calls
`azimuth`/`elevation`; the `lru_cache` is pure memoization and does not
change the value computed. -/

/-- A Python `datetime`, reduced to what `Sun` inspects: a timestamp and
whether `tzinfo` is present. -/
structure PyDateTime where
  stamp : ℤ
  aware : Bool
  deriving DecidableEq

/-- Embeds `DataModel.SunConfig` (src/DataModel/SunConfig.py).  Its
`__post_init__` guarantees that `elevation`/`azimuth` are present whenever
`override_position` is set, so they are carried as plain fields here. -/
structure SunConfig where
  override_position : Bool
  elevation : ℚ
  azimuth : ℚ
  deriving DecidableEq

/-- Embeds `Sun.SunPosition` (src/Calculation/Sun.py, lines 10-29). -/
structure SunPosition where
  azimuth : ℚ
  elevation : ℚ
  time : PyDateTime
  deriving DecidableEq

/-- Errors raised inside `Sun` (`raise ValueError(...)`). -/
inductive SunError where
  | invalidLatitude
  | invalidLongitude
  | naiveTime
  deriving DecidableEq

namespace Sun

/-- Embeds `Sun.validate_coordinates` (src/Calculation/Sun.py, lines 73-87):

    if not -90 <= latitude <= 90: raise ValueError(...)
    if not -180 <= longitude <= 180: raise ValueError(...)
-/
def validate_coordinates (latitude longitude : ℚ) : Except SunError Unit :=
  if ¬ (-90 ≤ latitude ∧ latitude ≤ 90) then .error .invalidLatitude
  else if ¬ (-180 ≤ longitude ∧ longitude ≤ 180) then .error .invalidLongitude
  else .ok ()

/-- Embeds `Sun.get_position` (src/Calculation/Sun.py, lines 109-147).
`ephemeris` abstracts the astral computation done by `_calculate_position`
(the lru_cache around it memoizes the same value).  Note the source checks
`time.tzinfo is None` first, then the override branch, and never calls
`validate_coordinates`:

    if time.tzinfo is None: raise ValueError("Time must be timezone-aware")
    if sun_config and sun_config.override_position:
        return SunPosition(azimuth=sun_config.azimuth, ...)
    az, el = Sun._calculate_position(latitude, longitude, time_str)
    return SunPosition(azimuth=az, elevation=el, time=time)
-/
def get_position (ephemeris : ℚ → ℚ → ℤ → ℚ × ℚ)
    (latitude longitude : ℚ) (time : PyDateTime)
    (sun_config : Option SunConfig) : Except SunError SunPosition :=
  if time.aware = false then .error .naiveTime
  else
    match sun_config with
    | some cfg =>
      if cfg.override_position then
        .ok ⟨cfg.azimuth, cfg.elevation, time⟩
      else
        let p := ephemeris latitude longitude time.stamp
        .ok ⟨p.1, p.2, time⟩
    | none =>
      let p := ephemeris latitude longitude time.stamp
      .ok ⟨p.1, p.2, time⟩

end Sun

/-! ## Unit conversion (src/UnitConverter.py)

Conversion factors are exact decimals, modelled in `ℚ`. -/

/-- Python's `str.lower()`, character-wise (all unit names are ASCII). -/
def pyLower (s : String) : String := ⟨s.data.map Char.toLower⟩

namespace UnitConverter

/-- Embeds the `UNIT_CONVERSIONS` dictionary (src/UnitConverter.py, lines
12-21): factor to meters for each supported unit name, `none` for an
unsupported name. -/
def UNIT_CONVERSIONS (unit : String) : Option ℚ :=
  if unit = "meters" ∨ unit = "m" then some 1
  else if unit = "feet" ∨ unit = "ft" then some (3048 / 10000)
  else if unit = "inches" ∨ unit = "in" then some (254 / 10000)
  else if unit = "centimeters" ∨ unit = "cm" then some (1 / 100)
  else none

/-- Embeds `UnitConverter.is_valid_unit` (src/UnitConverter.py, lines 33-44):
membership of the lower-cased name in `UNIT_CONVERSIONS`. -/
def is_valid_unit (unit : String) : Bool :=
  (UNIT_CONVERSIONS (pyLower unit)).isSome

/-- Embeds `UnitConverter.convert_to_meters` (src/UnitConverter.py, lines
46-67): lower-case the unit, fail on an unsupported one, otherwise multiply
by the conversion factor. -/
def convert_to_meters (value : ℚ) (unit : String) : Except String ℚ :=
  match UNIT_CONVERSIONS (pyLower unit) with
  | none => .error "Unsupported unit"
  | some factor => .ok (value * factor)

/-- Embeds `UnitConverter.convert_from_meters` (src/UnitConverter.py, lines
69-90): lower-case the unit, fail on an unsupported one, otherwise divide by
the conversion factor. -/
def convert_from_meters (value : ℚ) (unit : String) : Except String ℚ :=
  match UNIT_CONVERSIONS (pyLower unit) with
  | none => .error "Unsupported unit"
  | some factor => .ok (value / factor)

end UnitConverter

/-! ## Time specification (src/DataModel/TimeSpecification.py)

Timestamps and intervals are modelled as rational numbers of seconds
(`datetime` differences and `timedelta` division are exact there); the
timezone-attachment step touches only zone metadata, never the arithmetic
validated here, and all times are taken as already aware. -/

/-- A validated `TimeSpecification`: either a single point in time or a
range with an interval. -/
inductive TimeSpec where
  | point (t : ℚ)
  | range (start_time end_time interval : ℚ)
  deriving DecidableEq

namespace TimeSpecification

/-- Embeds `TimeSpecification.__post_init__`
(src/DataModel/TimeSpecification.py, lines 30-68).  Field checks in source
order: point/range exclusivity and completeness, then for a range
`end <= start`, `interval <= 0`, and the size guard

    total_points = (self.end_time - self.start_time) / self.interval
    if total_points > 1000: raise ValueError("Time range too large: ...")
-/
def post_init (point_time : Option ℚ)
    (start_time end_time interval : Option ℚ) : Except String TimeSpec :=
  match point_time with
  | some p =>
    if start_time.isSome ∨ end_time.isSome ∨ interval.isSome then
      .error "Cannot specify both point time and time range"
    else .ok (.point p)
  | none =>
    match start_time, end_time, interval with
    | some s, some e, some i =>
      if e ≤ s then .error "End time must be after start time"
      else if i ≤ 0 then .error "Interval must be positive"
      else if 1000 < (e - s) / i then .error "Time range too large"
      else .ok (.range s e i)
    | _, _, _ =>
      .error "Must specify all range parameters (start, end, interval) or none"

/-- The generator loop of `get_times` for a range
(src/DataModel/TimeSpecification.py, lines 92-95):

    current = self.start_time
    while current <= self.end_time:
        yield current
        current += self.interval

The positivity of the interval (guaranteed by `post_init`) is what makes the
loop terminate. -/
def range_times (end_time interval : ℚ) (hpos : 0 < interval)
    (current : ℚ) : List ℚ :=
  if h : current ≤ end_time then
    current :: range_times end_time interval hpos (current + interval)
  else []
termination_by (⌊(end_time - current) / interval⌋ + 1).toNat
decreasing_by
  have hne : interval ≠ 0 := ne_of_gt hpos
  have hstep : (end_time - (current + interval)) / interval
      = (end_time - current) / interval - 1 := by
    field_simp
    ring
  have hfloor : ⌊(end_time - (current + interval)) / interval⌋
      = ⌊(end_time - current) / interval⌋ - 1 := by
    rw [hstep]
    exact_mod_cast Int.floor_sub_int ((end_time - current) / interval) 1
  have hnonneg : 0 ≤ ⌊(end_time - current) / interval⌋ :=
    Int.floor_nonneg.mpr (div_nonneg (by linarith) (le_of_lt hpos))
  rw [hfloor]
  omega

/-- Embeds `TimeSpecification.get_times`
(src/DataModel/TimeSpecification.py, lines 80-95): a point yields itself; a
range runs the while loop.  (For a non-positive interval the source loop
would never terminate; `post_init` rules that out, and the model returns `[]`
on that dead branch.) -/
def get_times : TimeSpec → List ℚ
  | .point t => [t]
  | .range s e i =>
    if h : 0 < i then range_times e i h s else []

end TimeSpecification

/-! ## Area polygon geometry (src/DataModel/Area.py) -/

namespace Area

/-- One iteration's condition in the ray-casting loop of
`Area.contains_point` (src/DataModel/Area.py, lines 107-111):

    (y[i] > point_y) != (y[i+1] > point_y) and
    point_x < (x[i+1]-x[i]) * (point_y-y[i]) / (y[i+1]-y[i]) + x[i]

(The guard makes the division safe: if the two y's are equal the first
conjunct is false and Python short-circuits; in `ℚ` division by zero is 0
and the conjunction is false all the same.) -/
def edge_crosses (point : ℚ × ℚ) (e : (ℚ × ℚ) × (ℚ × ℚ)) : Bool :=
  (decide (e.1.2 > point.2) != decide (e.2.2 > point.2)) &&
  decide (point.1 <
    (e.2.1 - e.1.1) * (point.2 - e.1.2) / (e.2.2 - e.1.2) + e.1.1)

/-- The edge list the loop of `Area.contains_point` walks: the vertex list
closed by appending its first vertex (`x.append(x[0])`), paired
consecutively. -/
def closed_edges (vertices : List (ℚ × ℚ)) : List ((ℚ × ℚ) × (ℚ × ℚ)) :=
  match vertices with
  | [] => []
  | v :: _ => (vertices ++ [v]).zip ((vertices ++ [v]).tail)

/-- Embeds `Area.contains_point` (src/DataModel/Area.py, lines 80-113):
walk the closed edge list, toggling `inside` on every crossing edge. -/
def contains_point (vertices : List (ℚ × ℚ)) (point : ℚ × ℚ) : Bool :=
  (closed_edges vertices).foldl
    (fun inside e => if edge_crosses point e then !inside else inside) false

/-- The toggling fold of `contains_point` computes the parity of the number
of crossing edges. -/
theorem foldl_toggle_parity (point : ℚ × ℚ) (l : List ((ℚ × ℚ) × (ℚ × ℚ)))
    (b : Bool) :
    l.foldl (fun inside e => if edge_crosses point e then !inside else inside) b
      = (b != (l.countP (edge_crosses point) % 2 == 1)) := by
  induction l generalizing b with
  | nil => simp
  | cons e l ih =>
    rw [List.foldl_cons, ih, List.countP_cons]
    by_cases hc : edge_crosses point e
    · rcases Nat.mod_two_eq_zero_or_one (l.countP (edge_crosses point)) with h | h <;>
        simp [hc, Nat.add_mod, h]
    · simp [hc]

end Area

/-! ## Arithmetic facts about `pymod` -/

theorem pymod_eq_mul_fract {α : Type} [LinearOrderedField α] [FloorRing α]
    (x y : α) (hy : y ≠ 0) : pymod x y = y * Int.fract (x / y) := by
  rw [pymod, Int.fract]
  field_simp

theorem pymod_nonneg {α : Type} [LinearOrderedField α] [FloorRing α]
    (x y : α) (hy : 0 < y) : 0 ≤ pymod x y := by
  rw [pymod_eq_mul_fract x y (ne_of_gt hy)]
  exact mul_nonneg hy.le (Int.fract_nonneg _)

theorem pymod_lt {α : Type} [LinearOrderedField α] [FloorRing α]
    (x y : α) (hy : 0 < y) : pymod x y < y := by
  rw [pymod_eq_mul_fract x y (ne_of_gt hy)]
  calc y * Int.fract (x / y) < y * 1 :=
        mul_lt_mul_of_pos_left (Int.fract_lt_one _) hy
    _ = y := mul_one y

/-- Length of the `get_times` while-loop output: for a positive interval and
`current ≤ end_time` it yields `⌊(end_time - current)/interval⌋ + 1`
timestamps. -/
theorem range_times_length (end_time interval : ℚ) (hpos : 0 < interval) :
    ∀ (current : ℚ), current ≤ end_time →
      (TimeSpecification.range_times end_time interval hpos current).length
        = (⌊(end_time - current) / interval⌋).toNat + 1 := by
  have key : ∀ (n : ℕ) (current : ℚ), current ≤ end_time →
      (⌊(end_time - current) / interval⌋).toNat = n →
      (TimeSpecification.range_times end_time interval hpos current).length
        = n + 1 := by
    intro n
    induction n with
    | zero =>
      intro c hc h0
      have hnn : (0:ℤ) ≤ ⌊(end_time - c) / interval⌋ :=
        Int.floor_nonneg.mpr (div_nonneg (by linarith) hpos.le)
      have hfl : ⌊(end_time - c) / interval⌋ = 0 := by omega
      have hlt : (end_time - c) / interval < 1 := by
        have h1 := Int.lt_floor_add_one ((end_time - c) / interval)
        rw [hfl] at h1
        simpa using h1
      have hstop : ¬ (c + interval ≤ end_time) := by
        intro hcon
        have h2 : (1:ℚ) ≤ (end_time - c) / interval := by
          rw [le_div_iff hpos]; linarith
        linarith
      rw [TimeSpecification.range_times, dif_pos hc,
          TimeSpecification.range_times, dif_neg hstop]
      simp
    | succ n ih =>
      intro c hc hn
      have hnn : (0:ℤ) ≤ ⌊(end_time - c) / interval⌋ :=
        Int.floor_nonneg.mpr (div_nonneg (by linarith) hpos.le)
      have hge1 : (1:ℤ) ≤ ⌊(end_time - c) / interval⌋ := by omega
      have hnext : c + interval ≤ end_time := by
        have h1 : (1:ℚ) ≤ (end_time - c) / interval := by
          exact_mod_cast Int.le_floor.mp hge1
        rw [le_div_iff hpos] at h1
        linarith
      have hstep : (end_time - (c + interval)) / interval
          = (end_time - c) / interval - 1 := by
        field_simp
        ring
      have hfl : ⌊(end_time - (c + interval)) / interval⌋
          = ⌊(end_time - c) / interval⌋ - 1 := by
        rw [hstep]
        exact_mod_cast Int.floor_sub_int ((end_time - c) / interval) 1
      have htn : (⌊(end_time - (c + interval)) / interval⌋).toNat = n := by
        rw [hfl]; omega
      rw [TimeSpecification.range_times, dif_pos hc, List.length_cons,
          ih (c + interval) hnext htn]
  intro current hc
  exact key _ current hc rfl

/-! ## Evaluation lemmas for the trigonometric embedding -/

theorem atan2_zero_right (y : ℝ) (hy : 0 < y) : atan2 y 0 = Real.pi / 2 := by
  rw [atan2, if_neg (lt_irrefl 0), if_neg (lt_irrefl 0), if_pos hy]

theorem atan2_zero_zero : atan2 0 0 = 0 := by
  rw [atan2, if_neg (lt_irrefl 0), if_neg (lt_irrefl 0),
      if_neg (lt_irrefl 0), if_neg (lt_irrefl 0)]

theorem math_degrees_pi_div_two : math_degrees (Real.pi / 2) = 90 := by
  have hpi := Real.pi_ne_zero
  rw [math_degrees]
  field_simp
  ring

theorem math_degrees_zero : math_degrees 0 = 0 := by
  rw [math_degrees, zero_mul]

/-- The wall from (0,0) to (0,10) points due north: compass bearing 0°. -/
theorem wall_direction_north :
    ShadowCalculations.calculate_wall_direction ⟨"w", 10, (0, 0), (0, 10)⟩
      = 0 := by
  simp only [ShadowCalculations.calculate_wall_direction]
  norm_num [atan2_zero_right 10 (by norm_num), math_degrees_pi_div_two, pymod]

/-- A zero-length wall gets bearing 90°: `atan2(0, 0) = 0`, so
`(90 - 0) mod 360 = 90` — no error is raised anywhere. -/
theorem wall_direction_degenerate (w : Wall)
    (h : w.start_point = w.end_point) :
    ShadowCalculations.calculate_wall_direction w = 90 := by
  simp only [ShadowCalculations.calculate_wall_direction, h]
  norm_num [atan2_zero_zero, math_degrees_zero, pymod]

theorem shadow_direction_of_azimuth_90 :
    ShadowCalculations.calculate_shadow_direction (90 : ℝ) = 270 := by
  simp only [ShadowCalculations.calculate_shadow_direction]
  norm_num [pymod]

/-- With azimuth 90° a degenerate wall is classified sun-parallel (bearing
90° against sun bearing 90°), so `calculate_shadow` takes the 4-vertex
triangular branch and returns a `Shadow` without any error. -/
theorem degenerate_shadow_ok (w : Wall) (h : w.start_point = w.end_point)
    (elev : ℝ) (t : ℤ) :
    (ShadowCalculations.calculate_shadow w elev 90 t).isOk = true := by
  have hpar : ShadowCalculations.is_sun_parallel
      (ShadowCalculations.calculate_wall_direction w)
      (ShadowCalculations.calculate_shadow_direction (90 : ℝ)) 5 := by
    rw [wall_direction_degenerate w h, shadow_direction_of_azimuth_90]
    simp only [ShadowCalculations.is_sun_parallel]
    norm_num [pymod]
  simp only [ShadowCalculations.calculate_shadow,
             ShadowCalculations.calculate_shadow_vertices]
  rw [if_pos hpar]
  simp [Shadow.make, Except.isOk, Except.toBool]

/-! ## Claims -/

/-- C1: the claim says the general (non-parallel) case returns a Shadow with
exactly the 4 vertices [start, end, end+offset, start+offset].  In fact the
source appends the start point again to "close the polygon", producing 5
vertices, and `Shadow.__post_init__` then raises `ValueError("Shadow must
have exactly 4 vertices, got 5")`: at wall (0,0)-(0,10) (bearing 0°),
elevation 45°, azimuth 90° (shadow direction 270°, not parallel),
`calculate_shadow` fails with the vertex-count error instead of returning a
Shadow. -/
theorem calculate_shadow_general_case_vertex_count :
    ShadowCalculations.calculate_shadow ⟨"w", 10, (0, 0), (0, 10)⟩ 45 90 0
      = .error (.badVertexCount 5) := by
  have hpar : ¬ ShadowCalculations.is_sun_parallel
      (ShadowCalculations.calculate_wall_direction ⟨"w", 10, (0, 0), (0, 10)⟩)
      (ShadowCalculations.calculate_shadow_direction (90 : ℝ)) 5 := by
    rw [wall_direction_north, shadow_direction_of_azimuth_90]
    simp only [ShadowCalculations.is_sun_parallel]
    norm_num [pymod]
  simp only [ShadowCalculations.calculate_shadow,
             ShadowCalculations.calculate_shadow_vertices]
  rw [if_neg hpar]
  simp [Shadow.make]

/-- C2 counterexample: the claim says `calculate_shadow` on a wall with
start == end fails with an InvalidGeometryError before the bearing step.  No
such check exists: on the degenerate wall at (3,4) with elevation 45°,
azimuth 90°, the call returns a Shadow successfully. -/
theorem degenerate_wall_shadow_succeeds :
    (ShadowCalculations.calculate_shadow ⟨"degenerate", 10, (3, 4), (3, 4)⟩
        45 90 0).isOk = true :=
  degenerate_shadow_ok ⟨"degenerate", 10, (3, 4), (3, 4)⟩ rfl 45 0

/-- C2 (amended): `calculate_shadow` performs no degenerate-wall check and
the source has no InvalidGeometryError; for a wall with start == end the
bearing computation proceeds (`atan2(0,0) = 0`, giving wall direction 90°),
and with azimuth 90° the call returns a Shadow without error. -/
theorem calculate_shadow_no_degenerate_check (w : Wall)
    (h : w.start_point = w.end_point) :
    ShadowCalculations.calculate_wall_direction w = 90 ∧
    ∀ (elev : ℝ) (t : ℤ),
      (ShadowCalculations.calculate_shadow w elev 90 t).isOk = true :=
  ⟨wall_direction_degenerate w h, fun elev t => degenerate_shadow_ok w h elev t⟩

/-- Witness for C2 (amended) at a concrete degenerate wall. -/
theorem calculate_shadow_no_degenerate_check_witness :
    (⟨"w", 10, (0, 0), (0, 0)⟩ : Wall).start_point
        = (⟨"w", 10, (0, 0), (0, 0)⟩ : Wall).end_point ∧
    ShadowCalculations.calculate_wall_direction ⟨"w", 10, (0, 0), (0, 0)⟩ = 90 ∧
    (ShadowCalculations.calculate_shadow ⟨"w", 10, (0, 0), (0, 0)⟩ 45 90 0).isOk
        = true :=
  ⟨rfl, (calculate_shadow_no_degenerate_check ⟨"w", 10, (0, 0), (0, 0)⟩ rfl).1,
   (calculate_shadow_no_degenerate_check ⟨"w", 10, (0, 0), (0, 0)⟩ rfl).2 45 0⟩

/-- C4 counterexample: the claim's symmetric-wrapping example fails on the
code.  With wall direction 2° and shadow direction 178° the sun bearing is
(178+180) mod 360 = 358°, whose angular difference to the wall is 4° ≤ 5°,
so the claimed predicate (`spec_is_sun_parallel`, the spec's wording) holds —
but the source computes `(358 - 2) mod 360 = 356` and returns false. -/
theorem is_sun_parallel_wrap_counterexample :
    spec_is_sun_parallel (2 : ℚ) 178 5 ∧
    ¬ ShadowCalculations.is_sun_parallel (2 : ℚ) 178 5 := by
  constructor
  · norm_num [spec_is_sun_parallel, pymod]
  · norm_num [ShadowCalculations.is_sun_parallel, pymod]

/-- C4 (amended): `is_sun_parallel` is true iff
`d = ((shadow+180 mod 360) - wall) mod 360 ∈ [0, 360)` satisfies `d ≤ tol`
or `180 - tol ≤ d ≤ 180 + tol` — the boundary is inclusive, but wrapping is
handled only on one side: wall 358° vs shadow 182° (sun bearing 2°) is
parallel, while wall 2° vs shadow 178° (sun bearing 358°) is not; a
difference of exactly the tolerance (wall 0°, shadow 185°, sun bearing 5°)
triggers the parallel branch. -/
theorem is_sun_parallel_characterization :
    (∀ (w s tol : ℚ),
      ShadowCalculations.is_sun_parallel w s tol ↔
        (pymod (pymod (s + 180) 360 - w) 360 ≤ tol ∨
         (180 - tol ≤ pymod (pymod (s + 180) 360 - w) 360 ∧
          pymod (pymod (s + 180) 360 - w) 360 ≤ 180 + tol))) ∧
    ShadowCalculations.is_sun_parallel (0 : ℚ) 185 5 ∧
    ShadowCalculations.is_sun_parallel (358 : ℚ) 182 5 ∧
    ¬ ShadowCalculations.is_sun_parallel (2 : ℚ) 178 5 := by
  refine ⟨fun w s tol => ?_, ?_, ?_, ?_⟩
  · have hd : 0 ≤ pymod (pymod (s + 180) 360 - w) 360 :=
      pymod_nonneg _ _ (by norm_num)
    simp only [ShadowCalculations.is_sun_parallel]
    rw [abs_of_nonneg hd]
    refine or_congr Iff.rfl ?_
    rw [abs_le]
    constructor
    · intro h1
      constructor <;> linarith [h1.1, h1.2]
    · intro h1
      constructor <;> linarith [h1.1, h1.2]
  · norm_num [ShadowCalculations.is_sun_parallel, pymod]
  · norm_num [ShadowCalculations.is_sun_parallel, pymod]
  · norm_num [ShadowCalculations.is_sun_parallel, pymod]

/-- C5 counterexample: with start 0 s, end 1000 s, interval 1 s the claimed
point-count formula gives ⌈1000/1⌉ + 1 = 1001 > 1000, so the claim says
construction must fail — but the source's guard is `(end-start)/interval >
1000`, i.e. `1000 > 1000`, which is false, so construction succeeds, and
`get_times` then yields 1001 > 1000 timestamps. -/
theorem time_range_guard_counterexample :
    TimeSpecification.post_init none (some 0) (some 1000) (some 1)
      = .ok (.range 0 1000 1) ∧
    1000 < ⌈((1000 : ℚ) - 0) / 1⌉ + 1 ∧
    (TimeSpecification.get_times (.range 0 1000 1)).length = 1001 := by
  refine ⟨?_, by norm_num, ?_⟩
  · norm_num [TimeSpecification.post_init]
  · rw [TimeSpecification.get_times, dif_pos (by norm_num : (0:ℚ) < 1),
        range_times_length 1000 1 (by norm_num) 0 (by norm_num)]
    norm_num
    omega

/-- C5 (amended): a range `TimeSpecification` is constructed successfully
iff `end > start`, `interval > 0` and `(end - start)/interval ≤ 1000` (the
guard divides exactly — no ceiling, no +1), in which case the result is the
range itself; consequently `get_times` on a successfully constructed range
yields at most 1001 timestamps.  Both directions of the iff are proven: the
first conjunct gives necessity of the conditions (plus the length bound),
the second their sufficiency. -/
theorem time_range_guard (s e i : ℚ) :
    (∀ ts : TimeSpec,
      TimeSpecification.post_init none (some s) (some e) (some i) = .ok ts →
      ts = .range s e i ∧ s < e ∧ 0 < i ∧ (e - s) / i ≤ 1000 ∧
      (TimeSpecification.get_times ts).length ≤ 1001) ∧
    (s < e ∧ 0 < i ∧ (e - s) / i ≤ 1000 →
      TimeSpecification.post_init none (some s) (some e) (some i)
        = .ok (.range s e i)) := by
  constructor
  · intro ts h
    rw [TimeSpecification.post_init] at h
    split_ifs at h with h1 h2 h3
    all_goals simp only [Except.ok.injEq, reduceCtorEq] at h
    have hts := h
    have hse : s < e := lt_of_not_le h1
    have hi : 0 < i := lt_of_not_le h2
    have hcount : (e - s) / i ≤ 1000 := le_of_not_lt h3
    refine ⟨hts.symm, hse, hi, hcount, ?_⟩
    rw [← hts, TimeSpecification.get_times, dif_pos hi,
        range_times_length e i hi s hse.le]
    have hfloor : ⌊(e - s) / i⌋ ≤ 1000 := by
      have h4 : ((⌊(e - s) / i⌋ : ℤ) : ℚ) ≤ 1000 :=
        le_trans (Int.floor_le _) hcount
      exact_mod_cast h4
    omega
  · rintro ⟨hse, hi, hcount⟩
    rw [TimeSpecification.post_init]
    rw [if_neg (not_le.mpr hse), if_neg (not_le.mpr hi),
        if_neg (not_lt.mpr hcount)]

/-- Witness for C5 (amended) at start 0, end 10, interval 1: both
directions of the theorem are applied, with every hypothesis discharged at
the concrete input. -/
theorem time_range_guard_witness :
    TimeSpecification.post_init none (some 0) (some 10) (some 1)
      = .ok (.range 0 10 1) ∧
    (TimeSpecification.get_times (.range 0 10 1)).length ≤ 1001 :=
  ⟨(time_range_guard 0 10 1).2 ⟨by norm_num, by norm_num, by norm_num⟩,
   ((time_range_guard 0 10 1).1 (.range 0 10 1)
     ((time_range_guard 0 10 1).2
       ⟨by norm_num, by norm_num, by norm_num⟩)).2.2.2.2⟩

/-- C6: the shadow length is `height / tan(radians(elevation))` whenever
`radians(elevation) ≥ 0.001`, is clamped to `height * 1000` when
`radians(elevation) < 0.001` (so the result is a finite real in both
branches), and at elevation 45° it equals the wall height. -/
theorem shadow_length_formula :
    (∀ (h e : ℝ), 0.001 ≤ radians e →
      ShadowCalculations.calculate_shadow_length h e
        = h / Real.tan (radians e)) ∧
    (∀ (h e : ℝ), radians e < 0.001 →
      ShadowCalculations.calculate_shadow_length h e = h * 1000) ∧
    (∀ h : ℝ, ShadowCalculations.calculate_shadow_length h 45 = h) := by
  refine ⟨fun h e he => ?_, fun h e he => ?_, fun h => ?_⟩
  · simp only [ShadowCalculations.calculate_shadow_length]
    rw [if_neg (not_lt.mpr he)]
  · simp only [ShadowCalculations.calculate_shadow_length]
    rw [if_pos he]
  · have h45 : radians 45 = Real.pi / 4 := by
      rw [radians]; ring
    have hge : ¬ (radians 45 < 0.001) := by
      rw [h45]
      push_neg
      nlinarith [Real.pi_gt_three]
    simp only [ShadowCalculations.calculate_shadow_length]
    rw [if_neg hge, h45, Real.tan_pi_div_four, div_one]

/-- Witness for C6: both branches and the 45° special case at concrete
inputs (`radians 45 ≥ 0.001` via `π > 3`, `radians 0 = 0 < 0.001`). -/
theorem shadow_length_formula_witness :
    (0.001 ≤ radians 45 ∧
      ShadowCalculations.calculate_shadow_length 2 45
        = 2 / Real.tan (radians 45)) ∧
    (radians 0 < 0.001 ∧
      ShadowCalculations.calculate_shadow_length 3 0 = 3 * 1000) ∧
    ShadowCalculations.calculate_shadow_length 7 45 = 7 := by
  have h1 : (0.001 : ℝ) ≤ radians 45 := by
    rw [radians]
    nlinarith [Real.pi_gt_three]
  have h2 : radians 0 < (0.001 : ℝ) := by
    rw [radians]
    norm_num
  exact ⟨⟨h1, shadow_length_formula.1 2 45 h1⟩,
         ⟨h2, shadow_length_formula.2.1 3 0 h2⟩,
         shadow_length_formula.2.2 7⟩

/-- C7: for every `Shadow` with 4 unit-consistent vertices, the `area`
property equals the shoelace formula `|Σ (xᵢ·yᵢ₊₁ − xᵢ₊₁·yᵢ)| / 2` over the
4 vertices in order with wraparound; for the vertices
(0,0), (10,0), (10,5), (0,5) the area is 50. -/
theorem shadow_area_is_shoelace :
    (∀ (w : Wall) (t : ℤ) (p0 p1 p2 p3 : ℝ × ℝ) (el az : ℝ),
      Shadow.area ⟨w, t, [p0, p1, p2, p3], el, az⟩ =
        |(p0.1 * p1.2 - p1.1 * p0.2) + (p1.1 * p2.2 - p2.1 * p1.2) +
         (p2.1 * p3.2 - p3.1 * p2.2) + (p3.1 * p0.2 - p0.1 * p3.2)| / 2) ∧
    Shadow.area ⟨⟨"w", 10, (0, 0), (0, 10)⟩, 0,
        [(0, 0), (10, 0), (10, 5), (0, 5)], 45, 270⟩ = 50 := by
  constructor
  · intro w t p0 p1 p2 p3 el az
    have harg : shoelace_sum [p0, p1, p2, p3, p0] =
        (p0.1 * p1.2 - p1.1 * p0.2) + (p1.1 * p2.2 - p2.1 * p1.2) +
        (p2.1 * p3.2 - p3.1 * p2.2) + (p3.1 * p0.2 - p0.1 * p3.2) := by
      simp [shoelace_sum]
      ring
    simp only [Shadow.area, List.cons_append, List.nil_append]
    rw [harg]
  · norm_num [Shadow.area, shoelace_sum]

/-- C8: `contains_point` implements the ray-casting parity test (inside iff
the closed edge list is crossed an odd number of times); for the square
(0,0)-(10,0)-(10,10)-(0,10) the point (5,5) is inside and (15,15) outside.
(Determinism on repeated identical calls is immediate: the embedding is a
pure function.) -/
theorem contains_point_ray_casting_parity :
    (∀ (vertices : List (ℚ × ℚ)) (point : ℚ × ℚ),
      Area.contains_point vertices point = true ↔
        (Area.closed_edges vertices).countP (Area.edge_crosses point) % 2 = 1) ∧
    Area.contains_point [(0, 0), (10, 0), (10, 10), (0, 10)] (5, 5) = true ∧
    Area.contains_point [(0, 0), (10, 0), (10, 10), (0, 10)] (15, 15) = false := by
  refine ⟨fun vertices point => ?_, ?_, ?_⟩
  · rw [Area.contains_point, Area.foldl_toggle_parity]
    simp
  · norm_num [Area.contains_point, Area.closed_edges, Area.edge_crosses]
  · norm_num [Area.contains_point, Area.closed_edges, Area.edge_crosses]

/-- Every conversion factor in the `UNIT_CONVERSIONS` table is positive. -/
theorem UnitConverter.factor_pos (unit : String) (factor : ℚ)
    (h : UnitConverter.UNIT_CONVERSIONS unit = some factor) : 0 < factor := by
  rw [UnitConverter.UNIT_CONVERSIONS] at h
  split_ifs at h <;> simp_all <;> norm_num [← h]

/-- C9: unit conversion round-trips exactly in the rational model (hence in
particular within the claimed 1e-6 tolerance): for every value and every
supported unit, `convert_from_meters (convert_to_meters v u) u = v`, and the
10-feet round-trip recovers 10. -/
theorem unit_conversion_round_trip :
    (∀ (value : ℚ) (unit : String),
      UnitConverter.is_valid_unit unit = true →
      (UnitConverter.convert_to_meters value unit).bind
        (fun m => UnitConverter.convert_from_meters m unit) = .ok value) ∧
    (UnitConverter.convert_to_meters 10 "feet").bind
      (fun m => UnitConverter.convert_from_meters m "feet") = .ok 10 := by
  have main : ∀ (value : ℚ) (unit : String),
      UnitConverter.is_valid_unit unit = true →
      (UnitConverter.convert_to_meters value unit).bind
        (fun m => UnitConverter.convert_from_meters m unit) = .ok value := by
    intro value unit h
    rw [UnitConverter.is_valid_unit, Option.isSome_iff_exists] at h
    obtain ⟨factor, hf⟩ := h
    have hpos := UnitConverter.factor_pos _ _ hf
    simp only [UnitConverter.convert_to_meters, UnitConverter.convert_from_meters,
      hf, Except.bind]
    field_simp
  exact ⟨main, main 10 "feet" (by decide)⟩

/-- Witness for C9 at value 10 and unit "feet". -/
theorem unit_conversion_round_trip_witness :
    UnitConverter.is_valid_unit "feet" = true ∧
    (UnitConverter.convert_to_meters 10 "feet").bind
      (fun m => UnitConverter.convert_from_meters m "feet") = .ok 10 :=
  ⟨by decide, unit_conversion_round_trip.1 10 "feet" (by decide)⟩

/-- C10: `Sun.get_position` rejects every naive (timezone-less) datetime
before any other processing — in particular even when a fixed-position
override is active, since the `tzinfo` check precedes the override branch. -/
theorem get_position_rejects_naive_time
    (ephemeris : ℚ → ℚ → ℤ → ℚ × ℚ) (latitude longitude : ℚ) (stamp : ℤ)
    (sun_config : Option SunConfig) :
    Sun.get_position ephemeris latitude longitude ⟨stamp, false⟩ sun_config
      = .error .naiveTime := rfl

/-- C3: `Sun.get_position` never validates its coordinates — with latitude
100 (outside [-90, 90]) and no override it still returns a position built
from the ephemeris, even though `Sun.validate_coordinates` (which the
docstring promises is applied) rejects that latitude. -/
theorem get_position_skips_coordinate_validation :
    (∀ (ephemeris : ℚ → ℚ → ℤ → ℚ × ℚ) (stamp : ℤ),
      Sun.get_position ephemeris 100 0 ⟨stamp, true⟩ none
        = .ok ⟨(ephemeris 100 0 stamp).1, (ephemeris 100 0 stamp).2,
               ⟨stamp, true⟩⟩) ∧
    Sun.validate_coordinates 100 0 = .error .invalidLatitude := by
  refine ⟨fun ephemeris stamp => rfl, ?_⟩
  rw [Sun.validate_coordinates]
  norm_num
